import Mathlib

/-!
Verification of the S-expression calculator in `parsing.c` (the
S-Expression-chapter program: `lval` with `LVAL_ERR / LVAL_NUM / LVAL_SYM /
LVAL_SEXPR`, reader `lval_read_num`, evaluator `lval_eval` /
`lval_eval_sexpr`, and builtin dispatch `builtin_op`).

The embedding is a direct shallow translation of the C source: `lval` is a
sum type (the C struct's active-tag fields), S-expression cells are a Lean
`List`, C `long` is modelled as `Int` with the 64-bit range made explicit
where the source checks it (`strtol` / `ERANGE`), and the in-place loops of
the C code become structural recursions returning the new value.
-/

/-- The `lval` tagged union of `parsing.c`: one constructor per value of the
`LVAL_ERR / LVAL_NUM / LVAL_SYM / LVAL_SEXPR` tag enumeration, each carrying
exactly the fields the C code reads for that tag (`num`, `err`, `sym`, or
the `cell`/`count` child array, here a `List`). -/
inductive lval where
  | lnum (num : Int)
  | lerr (err : String)
  | lsym (sym : String)
  | lsexpr (cell : List lval)

mutual

/-- Structural equality test on `lval` (decidable equality is not derivable
for a nested inductive, so it is spelled out). -/
def lval.beq : lval → lval → Bool
  | .lnum a, .lnum b => a == b
  | .lerr a, .lerr b => a == b
  | .lsym a, .lsym b => a == b
  | .lsexpr a, .lsexpr b => lval.beqList a b
  | _, _ => false

/-- Structural equality test on lists of `lval`. -/
def lval.beqList : List lval → List lval → Bool
  | [], [] => true
  | a :: as, b :: bs => lval.beq a b && lval.beqList as bs
  | _, _ => false

end

mutual

theorem lval.beq_iff : ∀ a b : lval, lval.beq a b = true ↔ a = b
  | .lnum a, .lnum b => by simp [lval.beq]
  | .lnum _, .lerr _ => by simp [lval.beq]
  | .lnum _, .lsym _ => by simp [lval.beq]
  | .lnum _, .lsexpr _ => by simp [lval.beq]
  | .lerr _, .lnum _ => by simp [lval.beq]
  | .lerr a, .lerr b => by simp [lval.beq]
  | .lerr _, .lsym _ => by simp [lval.beq]
  | .lerr _, .lsexpr _ => by simp [lval.beq]
  | .lsym _, .lnum _ => by simp [lval.beq]
  | .lsym _, .lerr _ => by simp [lval.beq]
  | .lsym a, .lsym b => by simp [lval.beq]
  | .lsym _, .lsexpr _ => by simp [lval.beq]
  | .lsexpr _, .lnum _ => by simp [lval.beq]
  | .lsexpr _, .lerr _ => by simp [lval.beq]
  | .lsexpr _, .lsym _ => by simp [lval.beq]
  | .lsexpr a, .lsexpr b => by
      simp [lval.beq]
      exact lval.beqList_iff a b

theorem lval.beqList_iff : ∀ as bs : List lval, lval.beqList as bs = true ↔ as = bs
  | [], [] => by simp [lval.beqList]
  | [], _ :: _ => by simp [lval.beqList]
  | _ :: _, [] => by simp [lval.beqList]
  | a :: as, b :: bs => by
      simp [lval.beqList, Bool.and_eq_true]
      exact and_congr (lval.beq_iff a b) (lval.beqList_iff as bs)

end

instance : DecidableEq lval := fun a b =>
  decidable_of_iff (lval.beq a b = true) (lval.beq_iff a b)

/-- Constructor `lval_num`. -/
def lval_num (x : Int) : lval := lval.lnum x

/-- Constructor `lval_err`. -/
def lval_err (m : String) : lval := lval.lerr m

/-- Constructor `lval_sym`. -/
def lval_sym (s : String) : lval := lval.lsym s

/-- `v->type == LVAL_NUM` test. -/
def lval.isNum : lval → Bool
  | .lnum _ => true
  | _ => false

/-- `v->type == LVAL_ERR` test. -/
def lval.isErr : lval → Bool
  | .lerr _ => true
  | _ => false

/-- `v->type == LVAL_SYM` test. -/
def lval.isSym : lval → Bool
  | .lsym _ => true
  | _ => false

/-- Field read `v->num` (only ever performed by the C code after the
`LVAL_NUM` tag check; the default is irrelevant). -/
def lval.getNum : lval → Int
  | .lnum n => n
  | _ => 0

/-- Field read `v->sym` (only ever performed after the `LVAL_SYM` check). -/
def lval.getSym : lval → String
  | .lsym s => s
  | _ => ""

/-! ## Reader: `lval_read_num` (`strtol` with `ERANGE` check) -/

/-- `LONG_MAX` for the 64-bit `long` of the reference platform. -/
def LONG_MAX : Int := 2 ^ 63 - 1

/-- `LONG_MIN` for the 64-bit `long` of the reference platform. -/
def LONG_MIN : Int := -(2 ^ 63)

/-- Value of a base-10 digit string. -/
def digitsToNat (ds : List Char) : Nat :=
  ds.foldl (fun a c => a * 10 + (c.toNat - 48)) 0

/-- The exact mathematical value denoted by a numeral matching the grammar
rule `number` (regex `-?[0-9]+`: optional minus sign followed by digits). -/
def numeralVal (s : String) : Int :=
  match s.data with
  | '-' :: ds => -(digitsToNat ds : Int)
  | ds => (digitsToNat ds : Int)

/-- Whether a string matches the grammar rule `number` (regex `-?[0-9]+`). -/
def isNumeral (s : String) : Bool :=
  match s.data with
  | '-' :: ds => !ds.isEmpty && ds.all Char.isDigit
  | ds => !ds.isEmpty && ds.all Char.isDigit

/-- C `strtol(s, NULL, 10)` on a well-formed numeral: returns the denoted
value, except that out-of-range values are clamped to `LONG_MAX`/`LONG_MIN`
with `errno` set to `ERANGE`. The second component is `errno == ERANGE`. -/
def strtol (s : String) : Int × Bool :=
  let v := numeralVal s
  if v > LONG_MAX then (LONG_MAX, true)
  else if v < LONG_MIN then (LONG_MIN, true)
  else (v, false)

/-- `lval_read_num`: `errno = 0; long x = strtol(t->contents, NULL, 10);
return errno != ERANGE ? lval_num(x) : lval_err("invalid number");` -/
def lval_read_num (s : String) : lval :=
  let r := strtol s
  if r.2 = false then lval_num r.1 else lval_err "invalid number"

/-! ## Builtin dispatch: `builtin_op` -/

/-- The all-operands-are-numbers precondition loop at the top of
`builtin_op` (returns false as soon as one `cell[i]->type != LVAL_NUM`). -/
def allNumbers : List lval → Bool
  | [] => true
  | c :: cs => if c.isNum then allNumbers cs else false

/-- The `while (a->count > 0)` fold loop of `builtin_op`: `x` is the
accumulator's `num` field (the accumulator stays `LVAL_NUM` until a zero
divisor replaces it with the error and breaks), each step pops the next
operand `y`. C `/` on `long` is truncated division, i.e. `Int.tdiv`. -/
def builtin_fold (op : String) : Int → List lval → lval
  | x, [] => lval_num x
  | x, y :: ys =>
    if op = "/" then
      if y.getNum = 0 then lval_err "Division by zero"
      else builtin_fold op (Int.tdiv x y.getNum) ys
    else
      builtin_fold op
        (if op = "+" then x + y.getNum
         else if op = "-" then x - y.getNum
         else if op = "*" then x * y.getNum
         else x) ys

/-- `builtin_op(a, op)`: checks every operand is a number, pops the first
operand as accumulator, negates it when `op` is `-` and no operands remain
(unary negation), then folds the remaining operands.
The empty-operand-list case never arises in the program (`lval_eval_sexpr`
calls `builtin_op` only with at least one operand); there the C code's
`lval_pop(a, 0)` would read past the array, so the stub value below is
unreachable. -/
def builtin_op (a : List lval) (op : String) : lval :=
  if allNumbers a then
    match a with
    | [] => lval_err "empty operand list"
    | x :: rest =>
      builtin_fold op
        (if op = "-" && rest.isEmpty then -x.getNum else x.getNum) rest
  else lval_err "Cannot operate on a non-number"

/-! ## Evaluator: `lval_eval` / `lval_eval_sexpr` -/

/-- The error scan of `lval_eval_sexpr`: return the first child whose type
is `LVAL_ERR` (`lval_take(v, i)` hands back that child itself). -/
def firstError : List lval → Option lval
  | [] => none
  | c :: cs => if c.isErr then some c else firstError cs

/-- The part of `lval_eval_sexpr` after its child-evaluation loop, applied
to the list of already-evaluated children: return the first error child if
any, return the empty S-expression unchanged, collapse a singleton to its
child (`lval_take(v, 0)`), otherwise pop the first child, require it to be
a symbol (else `lval_err("S-Expression does not start with a symbol")`),
and dispatch to `builtin_op` with the remaining children. -/
def sexpr_eval_post (ev : List lval) : lval :=
  match firstError ev with
  | some e => e
  | none =>
    match ev with
    | [] => lval.lsexpr []
    | [x] => x
    | f :: rest =>
      if f.isSym then builtin_op rest f.getSym
      else lval_err "S-Expression does not start with a symbol"

mutual

/-- `lval_eval`: S-expressions are reduced by `lval_eval_sexpr` (its body,
child evaluation followed by `sexpr_eval_post`, is inlined here so the
recursion is structural); every other `lval` type is self-evaluating and
returned unchanged. -/
def lval_eval : lval → lval
  | lval.lsexpr cells => sexpr_eval_post (evalList cells)
  | v => v
termination_by structural v => v

/-- The first `for` loop of `lval_eval_sexpr`: `v->cell[i] =
lval_eval(v->cell[i])` for each `i` in increasing order. -/
def evalList : List lval → List lval
  | [] => []
  | c :: cs => lval_eval c :: evalList cs
termination_by structural l => l

end

/-- `lval_eval_sexpr`: evaluate all children in order (the first `for`
loop, replacing each child in place), then the error scan, arity cases and
builtin dispatch of `sexpr_eval_post`. -/
def lval_eval_sexpr (cells : List lval) : lval :=
  sexpr_eval_post (evalList cells)

theorem lval_eval_lsexpr (cells : List lval) :
    lval_eval (lval.lsexpr cells) = lval_eval_sexpr cells := rfl

/-! ## Helper lemmas -/

theorem lval.isErr_eq_false_of_isSym (v : lval) (h : v.isSym = true) :
    v.isErr = false := by
  cases v <;> simp_all [lval.isSym, lval.isErr]

theorem evalList_eq_map : ∀ l : List lval, evalList l = l.map lval_eval
  | [] => rfl
  | c :: cs => by simp [evalList, evalList_eq_map cs]

theorem allNumbers_eq_false_of_mem {a : List lval} {v : lval}
    (hv : v ∈ a) (hnum : v.isNum = false) : allNumbers a = false := by
  induction a with
  | nil => cases hv
  | cons c cs ih =>
    rcases List.mem_cons.mp hv with h | h
    · subst h; simp [allNumbers, hnum]
    · by_cases hc : c.isNum <;> simp [allNumbers, hc, ih h]

theorem firstError_eq_none {l : List lval}
    (h : ∀ c ∈ l, c.isErr = false) : firstError l = none := by
  induction l with
  | nil => rfl
  | cons c cs ih =>
    have hc : c.isErr = false := h c (List.mem_cons_self c cs)
    simp [firstError, hc]
    exact ih fun d hd => h d (List.mem_cons_of_mem c hd)

theorem firstError_eq_get : ∀ (l : List lval) (i : Nat) (h : i < l.length),
    (l.get ⟨i, h⟩).isErr = true →
    (∀ c ∈ l.take i, c.isErr = false) →
    firstError l = some (l.get ⟨i, h⟩)
  | c :: cs, 0, _, he, _ => by simp_all [firstError]
  | c :: cs, k + 1, h, he, hmin => by
    have hc : c.isErr = false := hmin c (by simp)
    have hrest : ∀ d ∈ cs.take k, d.isErr = false := by
      intro d hd
      exact hmin d (by simp [hd])
    simp only [firstError, hc, Bool.false_eq_true, if_false]
    simpa using firstError_eq_get cs k (by simpa using h) (by simpa using he) hrest

theorem builtin_fold_unknown (op : String) (x : Int) (rest : List lval)
    (h1 : op ≠ "+") (h2 : op ≠ "-") (h3 : op ≠ "*") (h4 : op ≠ "/") :
    builtin_fold op x rest = lval_num x := by
  induction rest with
  | nil => rfl
  | cons y ys ih => simp [builtin_fold, h1, h2, h3, h4, ih]

theorem builtin_fold_div_zero : ∀ (rest : List lval) (x : Int),
    lval_num 0 ∈ rest → builtin_fold "/" x rest = lval_err "Division by zero"
  | y :: ys, x, hz => by
    by_cases hy : y.getNum = 0
    · simp [builtin_fold, hy]
    · have hmem : lval_num 0 ∈ ys := by
        rcases List.mem_cons.mp hz with h | h
        · exact absurd (by rw [← h]; rfl) hy
        · exact h
      simpa [builtin_fold, hy] using builtin_fold_div_zero ys (Int.tdiv x y.getNum) hmem

theorem builtin_fold_sub : ∀ (ys : List Int) (x : Int),
    builtin_fold "-" x (ys.map lval_num) = lval_num (ys.foldl (fun a b => a - b) x)
  | [], _ => rfl
  | y :: ys, x => by
    simpa [builtin_fold, lval.getNum, lval_num] using builtin_fold_sub ys (x - y)

theorem allNumbers_map_num : ∀ ys : List Int, allNumbers (ys.map lval_num) = true
  | [] => rfl
  | y :: ys => by simp [allNumbers, lval.isNum, lval_num, allNumbers_map_num ys]

/-! ## Claim theorems -/

/-- Claim C1, counterexample: `builtin_op` applied to the all-Number operand
list `[3, 4]` with the operator symbol `%` (not one of the four arithmetic
operators) returns `Number 3` — a Number, and not an error of any kind — so
the claimed `Error(bad-operator)` result is refuted. -/
theorem claim_C1_counterexample :
    builtin_op [lval_num 3, lval_num 4] "%" = lval_num 3 ∧
    (builtin_op [lval_num 3, lval_num 4] "%").isErr = false := by
  constructor <;> decide

/-- Claim C1, amended: for every application of `builtin_op` to a nonempty
operand list of Number values with an operator symbol that is not one of
`+`, `-`, `*`, `/`, the result is the first operand's Number unchanged; the
remaining operands are discarded and no `Error(bad-operator)` (nor any
other error) is produced. -/
theorem claim_C1_amended (x : Int) (rest : List lval) (op : String)
    (hnum : allNumbers rest = true)
    (h1 : op ≠ "+") (h2 : op ≠ "-") (h3 : op ≠ "*") (h4 : op ≠ "/") :
    builtin_op (lval_num x :: rest) op = lval_num x := by
  have hall : allNumbers (lval_num x :: rest) = true := by
    simp [allNumbers, lval.isNum, lval_num, hnum]
  simp only [builtin_op, hall, if_true]
  rw [if_neg (by simp [h2])]
  exact builtin_fold_unknown op (lval.getNum (lval_num x)) rest h1 h2 h3 h4

/-- Witness for the amended C1 at the concrete input `(% 3 4)`. -/
theorem claim_C1_witness :
    allNumbers [lval_num 4] = true ∧
    builtin_op (lval_num 3 :: [lval_num 4]) "%" = lval_num 3 :=
  ⟨by decide,
   claim_C1_amended 3 [lval_num 4] "%" (by decide) (by decide) (by decide)
     (by decide) (by decide)⟩

/-- Claim C2: S-expression evaluation first reduces every child in
left-to-right order (the evaluated child list is the pointwise `lval_eval`
image of the original children), and if the reduced child at position `i`
is an Error while every reduced child before it is not, the whole
S-expression evaluates to exactly that child (first error wins, returned
verbatim, rest discarded). -/
theorem claim_C2_first_error_wins (cells : List lval) (i : Nat)
    (h : i < (evalList cells).length)
    (he : ((evalList cells).get ⟨i, h⟩).isErr = true)
    (hmin : ∀ c ∈ (evalList cells).take i, c.isErr = false) :
    evalList cells = cells.map lval_eval ∧
    lval_eval_sexpr cells = (evalList cells).get ⟨i, h⟩ := by
  refine ⟨evalList_eq_map cells, ?_⟩
  have hfe := firstError_eq_get (evalList cells) i h he hmin
  unfold lval_eval_sexpr sexpr_eval_post
  rw [hfe]

/-- Witness for C2 at the concrete input `(+ (/ 1 0) (/ 2 0))`: both
children reduce to a division error and the first one (position 1, after
the symbol `+`) is returned. -/
theorem claim_C2_witness :
    lval_eval_sexpr
      [lval_sym "+",
       lval.lsexpr [lval_sym "/", lval_num 1, lval_num 0],
       lval.lsexpr [lval_sym "/", lval_num 2, lval_num 0]]
      = lval_err "Division by zero" := by
  have h := claim_C2_first_error_wins
    [lval_sym "+",
     lval.lsexpr [lval_sym "/", lval_num 1, lval_num 0],
     lval.lsexpr [lval_sym "/", lval_num 2, lval_num 0]]
    1 (by decide) (by decide) (by decide)
  rw [h.2]; decide

/-- Claim C3: the empty S-expression `()` evaluates to itself (not an
error), and an S-expression with exactly one child whose reduced form is
not an Error evaluates to that reduced child (parenthesis elision). -/
theorem claim_C3_empty_singleton (c : lval) (h : (lval_eval c).isErr = false) :
    lval_eval (lval.lsexpr []) = lval.lsexpr [] ∧
    lval_eval (lval.lsexpr [c]) = lval_eval c := by
  constructor
  · rfl
  · show sexpr_eval_post (evalList [c]) = lval_eval c
    simp [evalList, sexpr_eval_post, firstError, h]

/-- Witness for C3 at the concrete child `5`: `()` evaluates to `()` and
`(5)` evaluates to `5`. -/
theorem claim_C3_witness :
    (lval_eval (lval_num 5)).isErr = false ∧
    (lval_eval (lval.lsexpr []) = lval.lsexpr [] ∧
     lval_eval (lval.lsexpr [lval_num 5]) = lval_eval (lval_num 5)) :=
  ⟨by decide, claim_C3_empty_singleton (lval_num 5) (by decide)⟩

/-- Claim C4: a division fold over all-Number operands containing a zero
divisor yields `Error(div-by-zero)` (the `"Division by zero"` error): the
fold stops at the zero divisor without performing that division. -/
theorem claim_C4_div_by_zero (x : Int) (rest : List lval)
    (hnum : allNumbers rest = true) (hz : lval_num 0 ∈ rest) :
    builtin_op (lval_num x :: rest) "/" = lval_err "Division by zero" := by
  have hall : allNumbers (lval_num x :: rest) = true := by
    simp [allNumbers, lval.isNum, lval_num, hnum]
  simp only [builtin_op, hall, if_true]
  rw [if_neg (by simp)]
  exact builtin_fold_div_zero rest (lval.getNum (lval_num x)) hz

/-- Witness for C4 at the concrete input `(/ 10 2 0)`. -/
theorem claim_C4_witness :
    allNumbers [lval_num 2, lval_num 0] = true ∧
    lval_num 0 ∈ [lval_num 2, lval_num 0] ∧
    builtin_op (lval_num 10 :: [lval_num 2, lval_num 0]) "/"
      = lval_err "Division by zero" :=
  ⟨by decide, by simp,
   claim_C4_div_by_zero 10 [lval_num 2, lval_num 0] (by decide) (by simp)⟩

/-- Claim C5: if any operand of a builtin application is not a Number, the
whole application fails with the `"Cannot operate on a non-number"` error
(type mismatch), for every operator symbol. -/
theorem claim_C5_type_mismatch (a : List lval) (op : String) (v : lval)
    (hv : v ∈ a) (hnum : v.isNum = false) :
    builtin_op a op = lval_err "Cannot operate on a non-number" := by
  have hall : allNumbers a = false := allNumbers_eq_false_of_mem hv hnum
  simp [builtin_op, hall]

/-- Witness for C5 at the concrete input `(+ 1 2 foo)`. -/
theorem claim_C5_witness :
    lval_sym "foo" ∈ [lval_num 1, lval_num 2, lval_sym "foo"] ∧
    (lval_sym "foo").isNum = false ∧
    builtin_op [lval_num 1, lval_num 2, lval_sym "foo"] "+"
      = lval_err "Cannot operate on a non-number" :=
  ⟨by simp, by decide,
   claim_C5_type_mismatch [lval_num 1, lval_num 2, lval_sym "foo"] "+"
     (lval_sym "foo") (by simp) (by decide)⟩

/-- Claim C6: `-` applied to exactly one Number operand is unary negation,
and applied to two or more Number operands it is the left-to-right
subtraction fold starting from the first operand. -/
theorem claim_C6_unary_negation (n x : Int) (ys : List Int) (h : ys ≠ []) :
    builtin_op [lval_num n] "-" = lval_num (-n) ∧
    builtin_op (lval_num x :: ys.map lval_num) "-"
      = lval_num (ys.foldl (fun a b => a - b) x) := by
  constructor
  · rfl
  · have hall : allNumbers (lval_num x :: ys.map lval_num) = true := by
      simp [allNumbers, lval.isNum, lval_num, allNumbers_map_num ys]
    have hne : (ys.map lval_num).isEmpty = false := by
      cases ys with
      | nil => exact absurd rfl h
      | cons y ys => rfl
    simp only [builtin_op, hall, if_true, hne, Bool.and_false, if_neg Bool.false_ne_true]
    exact builtin_fold_sub ys (lval.getNum (lval_num x))

/-- Witness for C6 at the concrete inputs `(- 5)` and `(- 10 1 2)`. -/
theorem claim_C6_witness :
    ([1, 2] : List Int) ≠ [] ∧
    builtin_op [lval_num 5] "-" = lval_num (-5) ∧
    builtin_op [lval_num 10, lval_num 1, lval_num 2] "-" = lval_num 7 := by
  have h := claim_C6_unary_negation 5 10 [1, 2] (by decide)
  refine ⟨by decide, h.1, ?_⟩
  have h2 := h.2
  simpa using h2

/-- Claim C7: an S-expression with two or more reduced, error-free children
whose first reduced child is not a Symbol evaluates to the
`"S-Expression does not start with a symbol"` error. -/
theorem claim_C7_malformed (cells : List lval) (f : lval) (rest : List lval)
    (hev : evalList cells = f :: rest) (hne : rest ≠ [])
    (hf : f.isSym = false) (hferr : f.isErr = false)
    (hrerr : ∀ c ∈ rest, c.isErr = false) :
    lval_eval_sexpr cells = lval_err "S-Expression does not start with a symbol" := by
  have hnone : firstError (f :: rest) = none := by
    apply firstError_eq_none
    intro c hc
    rcases List.mem_cons.mp hc with h | h
    · subst h; exact hferr
    · exact hrerr c h
  unfold lval_eval_sexpr sexpr_eval_post
  rw [hev, hnone]
  cases rest with
  | nil => exact absurd rfl hne
  | cons r rs => simp [hf]

/-- Witness for C7 at the concrete input `(5 + 2)`. -/
theorem claim_C7_witness :
    evalList [lval_num 5, lval_sym "+", lval_num 2]
      = lval_num 5 :: [lval_sym "+", lval_num 2] ∧
    lval_eval_sexpr [lval_num 5, lval_sym "+", lval_num 2]
      = lval_err "S-Expression does not start with a symbol" :=
  ⟨by decide,
   claim_C7_malformed [lval_num 5, lval_sym "+", lval_num 2]
     (lval_num 5) [lval_sym "+", lval_num 2]
     (by decide) (by decide) (by decide) (by decide) (by decide)⟩

/-- Claim C8: a numeral literal (optional minus sign and digits, the
grammar's `number` rule) whose mathematical value lies outside the
representable `long` range lowers to the `"invalid number"` error
(`bad-number`), and every in-range numeral lowers to the Number holding its
exact value — no crash, truncation, or wraparound. -/
theorem claim_C8_range (s : String) (h : isNumeral s = true) :
    lval_read_num s =
      if numeralVal s < LONG_MIN ∨ LONG_MAX < numeralVal s
      then lval_err "invalid number"
      else lval_num (numeralVal s) := by
  by_cases h1 : numeralVal s > LONG_MAX
  · rw [if_pos (Or.inr h1)]
    simp [lval_read_num, strtol, h1]
  · by_cases h2 : numeralVal s < LONG_MIN
    · rw [if_pos (Or.inl h2)]
      simp [lval_read_num, strtol, h1, h2]
    · rw [if_neg (by push_neg; exact ⟨not_lt.mp h2, not_lt.mp h1⟩)]
      simp [lval_read_num, strtol, h1, h2]

/-- Witness for C8 at the concrete out-of-range numeral
`99999999999999999999` (which exceeds `LONG_MAX`). -/
theorem claim_C8_witness :
    isNumeral "99999999999999999999" = true ∧
    lval_read_num "99999999999999999999" =
      (if numeralVal "99999999999999999999" < LONG_MIN ∨
          LONG_MAX < numeralVal "99999999999999999999"
       then lval_err "invalid number"
       else lval_num (numeralVal "99999999999999999999")) ∧
    lval_read_num "99999999999999999999" = lval_err "invalid number" :=
  ⟨by decide, claim_C8_range "99999999999999999999" (by decide), by decide⟩

/-- Claim C9: an S-expression whose single child reduces to a Symbol (e.g.
`(+)`) evaluates to that Symbol itself, not an error: singleton elision
fires before the leading-element symbol check, so a lone operator symbol is
never dispatched to a builtin. -/
theorem claim_C9_singleton_symbol (c : lval) (h : (lval_eval c).isSym = true) :
    lval_eval (lval.lsexpr [c]) = lval_eval c ∧
    (lval_eval (lval.lsexpr [c])).isSym = true := by
  have herr : (lval_eval c).isErr = false :=
    lval.isErr_eq_false_of_isSym (lval_eval c) h
  have hmain : lval_eval (lval.lsexpr [c]) = lval_eval c := by
    show sexpr_eval_post (evalList [c]) = lval_eval c
    simp [evalList, sexpr_eval_post, firstError, herr]
  exact ⟨hmain, by rw [hmain]; exact h⟩

/-- Witness for C9 at the concrete input `(+)`. -/
theorem claim_C9_witness :
    (lval_eval (lval_sym "+")).isSym = true ∧
    (lval_eval (lval.lsexpr [lval_sym "+"]) = lval_eval (lval_sym "+") ∧
     (lval_eval (lval.lsexpr [lval_sym "+"])).isSym = true) :=
  ⟨by decide, claim_C9_singleton_symbol (lval_sym "+") (by decide)⟩

/-- Claim C10: builtin division of two Numbers with a nonzero divisor is C
signed integer division, i.e. truncation toward zero (`Int.tdiv`), not
flooring; in particular `(/ -7 2)` gives `-3`. -/
theorem claim_C10_div_truncates (x y : Int) (h : y ≠ 0) :
    builtin_op [lval_num x, lval_num y] "/" = lval_num (Int.tdiv x y) := by
  simp [builtin_op, allNumbers, lval.isNum, lval_num, builtin_fold, lval.getNum, h]

/-- Witness for C10 at the concrete input `(/ -7 2)`: the result is `-3`
(truncation toward zero), not `-4` (flooring). -/
theorem claim_C10_witness :
    (2 : Int) ≠ 0 ∧
    builtin_op [lval_num (-7), lval_num 2] "/" = lval_num (-3) := by
  refine ⟨by decide, ?_⟩
  have h := claim_C10_div_truncates (-7) 2 (by decide)
  rw [h]; decide
